import Mathlib

/-!
# Planity backend — verified embedding of the authentication core and resource routes

This file gives a shallow embedding, in Lean 4, of the Planity study-planner
backend (an Express/Mongoose application) and proves properties of its
authentication flow, its per-user resource scoping, and the derivation rules of
its study-session and timetable models.

JavaScript strings that the code computes on (emails, names, passwords, HH:MM
times) are modelled as `List Char` so that every operation is structural and
kernel-computable; fixed response messages are modelled as opaque `String`
labels compared only for equality.  Machine integers and dates are modelled as
`Nat` / `Int` (milliseconds since the epoch); JavaScript float arithmetic on
millisecond differences is modelled exactly.

The sources of `models/User.js`, `middleware/auth.js` and the JWT library are
not part of the provided source tree (only their callers are); the definitions
that stand in for them are marked `Modelled from the spec:` and follow the
specification's contract for the Credential Store, the Token Issuer/Verifier
and the Authorization Gate.
-/

namespace Planity

/-- JavaScript strings under computation, modelled as lists of characters. -/
abbrev JStr := List Char

/-- `c.toLowerCase()` on a single character: ASCII upper-case letters are
shifted by 32, everything else is untouched (the only case class exercised by
the code). -/
def jsToLowerChar (c : Char) : Char :=
  if 65 ≤ c.toNat ∧ c.toNat ≤ 90 then Char.ofNat (c.toNat + 32) else c

/-- `s.toLowerCase()`. -/
def jsToLower (s : JStr) : JStr := s.map jsToLowerChar

/-- The whitespace class trimmed by `trim()` and matched by `\s`. -/
def isWsChar (c : Char) : Bool :=
  c == ' ' || c == '\t' || c == '\n' || c == '\r'

/-- `s.trim()`: strip leading and trailing whitespace. -/
def jsTrim (s : JStr) : JStr :=
  ((s.dropWhile isWsChar).reverse.dropWhile isWsChar).reverse

/-- `s.split(sep)` for a one-character separator, as in
`this.startTime.split(':')`. -/
def splitOnChar (sep : Char) : JStr → List JStr
  | [] => [[]]
  | c :: rest =>
    let r := splitOnChar sep rest
    if c == sep then [] :: r
    else
      match r with
      | [] => [[c]]
      | g :: gs => (c :: g) :: gs

/-- Value of a string of decimal digits. -/
def digitsToNat (s : JStr) : Nat :=
  s.foldl (fun n c => n * 10 + (c.toNat - 48)) 0

/-- `parseInt(s)`: skip leading whitespace, read a maximal run of decimal
digits; `none` models the `NaN` result when no digit is found.  (The sign and
radix handling of `parseInt` is never exercised by the validated inputs the
code feeds it.) -/
def jsParseInt (s : JStr) : Option Nat :=
  let t := s.dropWhile isWsChar
  let ds := t.takeWhile Char.isDigit
  if ds.isEmpty then none else some (digitsToNat ds)

theorem jsToLowerChar_idem (c : Char) :
    jsToLowerChar (jsToLowerChar c) = jsToLowerChar c := by
  unfold jsToLowerChar
  split
  case isTrue h =>
    have hv : (c.toNat + 32).isValidChar := Or.inl (by omega)
    have ht : (Char.ofNat (c.toNat + 32)).toNat = c.toNat + 32 := by
      rw [Char.ofNat, dif_pos hv]; rfl
    rw [if_neg (by rw [ht]; omega)]
  case isFalse h =>
    rfl

theorem jsToLower_idem (s : JStr) : jsToLower (jsToLower s) = jsToLower s := by
  induction s with
  | nil => rfl
  | cons c rest ih =>
    simp only [jsToLower, List.map_cons] at ih ⊢
    rw [jsToLowerChar_idem]
    exact congrArg _ (by simpa [jsToLower] using ih)

/-! ## Data model: the `User` document (`models/User.js` via its callers and the spec) -/

/-- One entry of a user's subject list (`{name, assignments, status}`). -/
structure Subject where
  name : JStr
  assignments : List JStr
  status : String
deriving DecidableEq

/-- Modelled from the spec: the `User` document of `models/User.js` (the file
itself is not among the provided sources).  Fields follow §3 of the
specification: opaque immutable id, display name, login email, salted one-way
password hash, class/grade label (`class` is a reserved word in Lean, hence
`userClass`), subject list, the `isActive` gate and the `lastLogin` timestamp
(milliseconds since the epoch). -/
structure User where
  id : Nat
  name : JStr
  email : JStr
  passwordHash : JStr
  userClass : JStr
  subjects : List Subject
  isActive : Bool
  lastLogin : Option Nat
deriving DecidableEq

/-- Modelled from the spec: the one-way password hash of the Credential Store
(`models/User.js` pre-save hook, not among the provided sources).  The
derivation is modelled as a tagged embedding of the plaintext so that
verification by recomputation succeeds exactly on the original plaintext;
the tag keeps hashes disjoint from raw password strings. -/
def hashPassword (p : JStr) : JStr := 'h' :: '#' :: p

/-- Modelled from the spec: `user.comparePassword(plaintext)` recomputes the
one-way comparison against the stored hash. -/
def comparePassword (u : User) (p : JStr) : Bool :=
  u.passwordHash == hashPassword p

/-- Modelled from the spec: `User.findByEmail(email)` is a case-insensitive
lookup of the login email. -/
def findByEmail (store : List User) (e : JStr) : Option User :=
  store.find? (fun u => jsToLower u.email == jsToLower e)

/-- Persisting a loaded document with `user.save()`: the record with the same
`_id` is replaced. -/
def saveUser (store : List User) (u : User) : List User :=
  store.map (fun v => if v.id = u.id then u else v)

/-- The `normalizeEmail()` sanitizer of the email validator chain (lowercases
the address, per the spec's "normalizes email (lowercase, trimmed)"). -/
def normalizeEmail (e : JStr) : JStr := jsToLower e

/-- Modelled from the spec: the public-safe projection
`user.getPublicProfile()` of `models/User.js` — the same record without the
`passwordHash` field (the plaintext/hash is never serialized). -/
structure PublicUser where
  id : Nat
  name : JStr
  email : JStr
  userClass : JStr
  subjects : List Subject
  isActive : Bool
  lastLogin : Option Nat
deriving DecidableEq

def User.getPublicProfile (u : User) : PublicUser :=
  ⟨u.id, u.name, u.email, u.userClass, u.subjects, u.isActive, u.lastLogin⟩

/-! ## Token issuer / verifier (`generateToken` in `routes/auth.js`, `jsonwebtoken`) -/

/-- Modelled from the spec: a signed bearer token — a claim set `{userId}`
with an absolute expiry, carrying the signature produced from the process-wide
secret.  Tamper evidence is modelled by the verifier requiring the recorded
signing secret to match its own. -/
structure Token where
  userId : Nat
  expiresAt : Nat
  sig : JStr
deriving DecidableEq

/-- `generateToken(userId)`: `jwt.sign({userId}, secret, {expiresIn: ttl})`
issued at time `now`. -/
def generateToken (secret : JStr) (userId now ttl : Nat) : Token :=
  ⟨userId, now + ttl, secret⟩

/-- Modelled from the spec: `jwt.verify` — signature integrity first, then
expiry; both failures collapse to the same `none`. -/
def verifyToken (secret : JStr) (t : Token) (now : Nat) : Option Nat :=
  if t.sig == secret then
    if now < t.expiresAt then some t.userId else none
  else none

/-! ## Authorization Gate (`middleware/auth.js`, not among the provided sources) -/

/-- Outcome of the per-request Authorization Gate. -/
inductive GateResult where
  | verified (u : User)
  | rejected (status : Nat) (message : String)
deriving DecidableEq

/-- Modelled from the spec: the Authorization Gate of `middleware/auth.js` —
extract the bearer token (absence rejects with an authentication-required
signal), verify it (failure rejects with an invalid/expired-credentials
signal), then load the referenced user; a missing or inactive account rejects
with the authentication-required signal.  On success the resolved user is
attached to the request. -/
def authGate (store : List User) (secret : JStr) (tok : Option Token) (now : Nat) :
    GateResult :=
  match tok with
  | none => .rejected 401 "Authentication required"
  | some t =>
    match verifyToken secret t now with
    | none => .rejected 401 "Invalid or expired token"
    | some uid =>
      match store.find? (fun u => u.id == uid) with
      | none => .rejected 401 "Authentication required"
      | some u =>
        if u.isActive then .verified u
        else .rejected 401 "Authentication required"

/-! ## Route input validation (`express-validator` chains of `routes/auth.js`) -/

/-- `body('name').trim().isLength({min:2,max:50}).matches(/^[a-zA-Z\s]+$/)`.
The sanitizer trims, so the checks run on the trimmed value. -/
def validNameInput (n : JStr) : Bool :=
  let t := jsTrim n
  2 ≤ t.length && t.length ≤ 50 && t.all (fun c => c.isAlpha || isWsChar c)

/-- Modelled from the spec: `body('email').isEmail()` delegates to the
external validator library; we model its contract as requiring a single `@`
separating a nonempty local part from a nonempty domain. -/
def wellFormedEmail (e : JStr) : Bool :=
  match splitOnChar '@' e with
  | [l, d] => !l.isEmpty && !d.isEmpty
  | _ => false

/-- `body('class').trim().isLength({min:1,max:20})`. -/
def validClassInput (s : JStr) : Bool :=
  let t := jsTrim s
  1 ≤ t.length && t.length ≤ 20

/-! ## `POST /api/auth/register` and `POST /api/auth/login` (`routes/auth.js`) -/

/-- The `{success, message, data: {user, token}}` envelope of the auth routes,
together with the HTTP status; absent `data` members are `none`. -/
structure AuthResponse where
  status : Nat
  success : Bool
  message : String
  user : Option PublicUser
  token : Option Token
deriving DecidableEq

/-- `router.post('/register')`: run the validator chain (a failure responds
400 "Validation failed"), reject a duplicate of an existing (case-insensitive)
email with 400, otherwise persist the new user — the pre-save hook hashes the
password — and respond 201 with the public profile and a fresh token.
`freshId` is the store-assigned id of the new document. -/
def register (store : List User) (freshId : Nat)
    (name email password userClass : JStr) (subjects : List Subject)
    (secret : JStr) (now ttl : Nat) : AuthResponse × List User :=
  if ¬(validNameInput name && wellFormedEmail email
        && decide (6 ≤ password.length) && validClassInput userClass) then
    (⟨400, false, "Validation failed", none, none⟩, store)
  else
    let email := normalizeEmail email
    match findByEmail store email with
    | some _ => (⟨400, false, "User already exists with this email", none, none⟩, store)
    | none =>
      let u : User :=
        { id := freshId, name := jsTrim name, email := email,
          passwordHash := hashPassword password, userClass := jsTrim userClass,
          subjects := subjects, isActive := true, lastLogin := none }
      (⟨201, true, "User registered successfully", some u.getPublicProfile,
        some (generateToken secret freshId now ttl)⟩, store ++ [u])

/-- `router.post('/login')`: validate, look the user up by normalized email,
reject an unknown email with the uniform "Invalid credentials", reject a
deactivated account with its dedicated message, reject a failed password
comparison with the uniform "Invalid credentials"; on success update
`lastLogin`, save, and respond with profile and token. -/
def login (store : List User) (email password : JStr)
    (secret : JStr) (now ttl : Nat) : AuthResponse × List User :=
  if ¬wellFormedEmail email then
    (⟨400, false, "Validation failed", none, none⟩, store)
  else
    let email := normalizeEmail email
    match findByEmail store email with
    | none => (⟨400, false, "Invalid credentials", none, none⟩, store)
    | some u =>
      if ¬u.isActive then
        (⟨400, false, "Your account has been deactivated. Please contact support.",
          none, none⟩, store)
      else if ¬comparePassword u password then
        (⟨400, false, "Invalid credentials", none, none⟩, store)
      else
        let u' : User := { u with lastLogin := some now }
        (⟨200, true, "Login successful", some u'.getPublicProfile,
          some (generateToken secret u.id now ttl)⟩, saveUser store u')

/-! ## `PUT /api/auth/profile` and `POST /api/auth/change-password` -/

/-- Response envelope of the profile route (`{success, message, data: {user}}`). -/
structure ProfileResponse where
  status : Nat
  success : Bool
  message : String
  user : Option PublicUser
deriving DecidableEq

/-- `body('name').optional().trim().isLength({min:2,max:50})` — an absent
field passes. -/
def validOptName (n : Option JStr) : Bool :=
  match n with
  | none => true
  | some s => 2 ≤ (jsTrim s).length && (jsTrim s).length ≤ 50

/-- `body('class').optional().trim().isLength({min:1,max:20})`. -/
def validOptClass (s : Option JStr) : Bool :=
  match s with
  | none => true
  | some s => 1 ≤ (jsTrim s).length && (jsTrim s).length ≤ 20

/-- `router.put('/profile')` behind the Authorization Gate (`authedId` is the
id the gate resolved): validate the optional fields, load the user, apply
`if (name) user.name = name` / `if (userClass) user.class = userClass` /
`if (subjects) user.subjects = subjects` — JavaScript truthiness skips an
empty trimmed string — then save. -/
def updateProfile (store : List User) (authedId : Nat)
    (name userClass : Option JStr) (subjects : Option (List Subject)) :
    ProfileResponse × List User :=
  if ¬(validOptName name && validOptClass userClass) then
    (⟨400, false, "Validation failed", none⟩, store)
  else
    match store.find? (fun u => u.id == authedId) with
    | none => (⟨404, false, "User not found", none⟩, store)
    | some u =>
      let u₁ := match name with
        | some s => if (jsTrim s).isEmpty then u else { u with name := jsTrim s }
        | none => u
      let u₂ := match userClass with
        | some s => if (jsTrim s).isEmpty then u₁ else { u₁ with userClass := jsTrim s }
        | none => u₁
      let u₃ := match subjects with
        | some ss => { u₂ with subjects := ss }
        | none => u₂
      (⟨200, true, "Profile updated successfully", some u₃.getPublicProfile⟩,
        saveUser store u₃)

/-- Response envelope of the change-password route (no `data`). -/
structure SimpleResponse where
  status : Nat
  success : Bool
  message : String
deriving DecidableEq

/-- `router.post('/change-password')` behind the Authorization Gate: validate
(`newPassword` at least 6 characters, `currentPassword` present), load the
user, re-verify the current password — a mismatch responds 400 "Current
password is incorrect" without saving — otherwise assign the new password
(hashed by the pre-save hook) and save. -/
def changePassword (store : List User) (authedId : Nat)
    (currentPassword newPassword : JStr) : SimpleResponse × List User :=
  if ¬(6 ≤ newPassword.length) then
    (⟨400, false, "Validation failed"⟩, store)
  else
    match store.find? (fun u => u.id == authedId) with
    | none => (⟨404, false, "User not found"⟩, store)
    | some u =>
      if ¬comparePassword u currentPassword then
        (⟨400, false, "Current password is incorrect"⟩, store)
      else
        (⟨200, true, "Password changed successfully"⟩,
          saveUser store { u with passwordHash := hashPassword newPassword })

/-! ## `GET /api/tasks/:id` (`routes/tasks.js`) -/

/-- The `Task` document of `models/Task.js`, restricted to the fields the
lookup route touches (`_id`, the owning `user`, and the payload). -/
structure Task where
  id : Nat
  user : Nat
  title : JStr
  subject : JStr
  dueDate : Int
deriving DecidableEq

/-- Response of `GET /api/tasks/:id`; the success body carries no `message`. -/
structure TaskResponse where
  status : Nat
  success : Bool
  message : Option String
  task : Option Task
deriving DecidableEq

/-- `router.get('/:id')`: `Task.findOne({_id: req.params.id, user: req.user._id})`
— the query is scoped to the authenticated user — and a miss responds
404 "Task not found". -/
def getTaskById (tasks : List Task) (authedId taskId : Nat) : TaskResponse :=
  match tasks.find? (fun t => t.id == taskId && t.user == authedId) with
  | none => ⟨404, false, some "Task not found", none⟩
  | some t => ⟨200, true, none, some t⟩

/-! ## The study-session pre-save hook (`models/StudySession.js`) -/

/-- One element of the `breaks` array (`{startTime, endTime, duration}`, every
field optional). -/
structure SessionBreak where
  startTime : Option Int
  endTime : Option Int
  duration : Option Int
deriving DecidableEq

/-- The `StudySession` document: times are milliseconds since the epoch,
`duration` and `totalBreakTime` minutes. -/
structure StudySession where
  user : Nat
  subject : JStr
  startTime : Int
  endTime : Option Int
  duration : Int
  notes : Option JStr
  productivity : Option Nat
  status : String
  breaks : List SessionBreak
  totalBreakTime : Int
deriving DecidableEq

/-- The reducer of the hook's `breaks.reduce`: add `breakTime.duration` when
it is truthy (an absent duration — and a zero one, zero being falsy — leaves
the total unchanged). -/
def breakStep (total : Int) (b : SessionBreak) : Int :=
  match b.duration with
  | some d => if d ≠ 0 then total + d else total
  | none => total

/-- The `breaks.reduce(..., 0)` of the pre-save hook. -/
def sessionBreakSum (breaks : List SessionBreak) : Int :=
  breaks.foldl breakStep 0

/-- `studySessionSchema.pre('save')`: when both times are present, store
`duration = Math.round((endTime - startTime) / (1000 * 60))` — modelled
exactly as `⌊(ms + 30000) / 60000⌋`, since `Math.round(x) = ⌊x + 1/2⌋` —
and recompute `totalBreakTime`. -/
def studySessionPreSave (s : StudySession) : StudySession :=
  match s.endTime with
  | some e =>
    { s with duration := Int.fdiv (e - s.startTime + 30000) 60000,
             totalBreakTime := sessionBreakSum s.breaks }
  | none => s

/-- The `effectiveStudyTime` virtual: `duration - totalBreakTime`. -/
def effectiveStudyTime (s : StudySession) : Int :=
  s.duration - s.totalBreakTime

/-! ## The timetable model, `POST /api/timetable` and `PUT /api/timetable/:id`
(`models/Timetable.js`, `routes/timetable.js`) -/

/-- A `Timetable` document.  `type` is a reserved word in Lean, hence `ttype`;
the enumerated labels (`dayOfWeek`, `ttype`) are opaque strings checked
against the schema lists; `id` is the store-assigned `_id`. -/
structure TimetableEntry where
  id : Nat
  user : Nat
  subject : JStr
  dayOfWeek : String
  startTime : JStr
  endTime : JStr
  teacher : Option JStr
  room : Option JStr
  ttype : String
  color : JStr
  isActive : Bool
deriving DecidableEq

/-- The day-of-week enumeration shared by the schema and the route validator. -/
def daysOfWeek : List String :=
  ["Monday", "Tuesday", "Wednesday", "Thursday", "Friday", "Saturday", "Sunday"]

/-- The entry-type enumeration of the schema. -/
def entryTypes : List String :=
  ["Lecture", "Lab", "Tutorial", "Study Session", "Break"]

/-- The `HH:MM` pattern `/^([0-1]?[0-9]|2[0-3]):[0-5][0-9]$/` of the schema
and the route validator: an hour of one or two digits valued up to 23 and a
minute of exactly two digits valued up to 59. -/
def validHHMM (t : JStr) : Bool :=
  match splitOnChar ':' t with
  | [h, m] =>
    !h.isEmpty && h.all Char.isDigit && h.length ≤ 2 && digitsToNat h ≤ 23
      && m.length == 2 && m.all Char.isDigit && digitsToNat m ≤ 59
  | _ => false

/-- `/^#([A-Fa-f0-9]{6}|[A-Fa-f0-9]{3})$/`. -/
def validHexColor (c : JStr) : Bool :=
  match c with
  | '#' :: rest =>
    (rest.length == 6 || rest.length == 3)
      && rest.all (fun d => d.isDigit || ('a' ≤ d && d ≤ 'f') || ('A' ≤ d && d ≤ 'F'))
  | _ => false

/-- The minutes-of-day computation of `timetableSchema.pre('save')`:
`parseInt(t.split(':')[0]) * 60 + parseInt(t.split(':')[1])`; a `NaN`
component (missing or digit-free part) makes the whole value `NaN`, modelled
as `none`. -/
def timeTotalMinutes (t : JStr) : Option Nat :=
  let parts := splitOnChar ':' t
  match (parts[0]?).bind jsParseInt, (parts[1]?).bind jsParseInt with
  | some h, some m => some (h * 60 + m)
  | _, _ => none

/-- Schema-level validation run by Mongoose before the user pre-save hook:
required trimmed `subject` nonempty, `dayOfWeek` in its enum, both times
matching `HH:MM`, `teacher` at most 50 and `room` at most 20 characters,
`type` in its enum and `color` a hex color.  (Trimming setters have already
been applied when the document was built.) -/
def schemaValidTimetable (e : TimetableEntry) : Bool :=
  !e.subject.isEmpty && daysOfWeek.contains e.dayOfWeek
    && validHHMM e.startTime && validHHMM e.endTime
    && (match e.teacher with | none => true | some t => t.length ≤ 50)
    && (match e.room with | none => true | some r => r.length ≤ 20)
    && entryTypes.contains e.ttype && validHexColor e.color

/-- `entry.save()`: Mongoose validates the document, then runs
`timetableSchema.pre('save')`, which parses both times and raises
`End time must be after start time` when `endTotalMinutes <= startTotalMinutes`
(a `NaN` comparison is false and raises nothing). -/
def saveTimetable (e : TimetableEntry) : Except String TimetableEntry :=
  if ¬schemaValidTimetable e then .error "Timetable validation failed"
  else
    match timeTotalMinutes e.startTime, timeTotalMinutes e.endTime with
    | some s, some en =>
      if en ≤ s then .error "End time must be after start time" else .ok e
    | _, _ => .ok e

/-- The request body of `POST /api/timetable`. -/
structure TimetableInput where
  subject : JStr
  dayOfWeek : String
  startTime : JStr
  endTime : JStr
  teacher : Option JStr
  room : Option JStr
  ttype : Option String
  color : Option JStr
deriving DecidableEq

/-- The validator chain of `POST /api/timetable`: trimmed `subject` of length
1–50, `dayOfWeek` in the enum, both times `HH:MM`, optional trimmed `teacher`
at most 50 and `room` at most 20 characters, optional `type` in the enum and
optional hex `color`. -/
def routeValidTimetable (inp : TimetableInput) : Bool :=
  1 ≤ (jsTrim inp.subject).length && (jsTrim inp.subject).length ≤ 50
    && daysOfWeek.contains inp.dayOfWeek
    && validHHMM inp.startTime && validHHMM inp.endTime
    && (match inp.teacher with | none => true | some t => (jsTrim t).length ≤ 50)
    && (match inp.room with | none => true | some r => (jsTrim r).length ≤ 20)
    && (match inp.ttype with | none => true | some ty => entryTypes.contains ty)
    && (match inp.color with | none => true | some c => validHexColor c)

/-- The schema default `'#007bff'` of `color`. -/
def defaultColor : JStr := ['#', '0', '0', '7', 'b', 'f', 'f']

/-- `router.post('/')` of `routes/timetable.js`: validate (failure responds
400 "Validation failed"), build the entry scoped to the authenticated user
with the schema defaults (`freshId` is the store-assigned `_id`), and save;
the catch block turns the pre-save hook's "End time must be after start time"
into a 400 — any other save error into a 500 — with nothing persisted, while
a successful save responds 201 and appends the entry. -/
def createTimetableEntry (entries : List TimetableEntry) (freshId authedId : Nat)
    (inp : TimetableInput) : SimpleResponse × List TimetableEntry :=
  if ¬routeValidTimetable inp then
    (⟨400, false, "Validation failed"⟩, entries)
  else
    let e : TimetableEntry :=
      { id := freshId, user := authedId, subject := jsTrim inp.subject,
        dayOfWeek := inp.dayOfWeek, startTime := inp.startTime,
        endTime := inp.endTime, teacher := inp.teacher.map jsTrim,
        room := inp.room.map jsTrim, ttype := inp.ttype.getD "Lecture",
        color := inp.color.getD defaultColor, isActive := true }
    match saveTimetable e with
    | .error msg =>
      if msg == "End time must be after start time" then
        (⟨400, false, "End time must be after start time"⟩, entries)
      else
        (⟨500, false, "Server error creating timetable entry"⟩, entries)
    | .ok e' =>
      (⟨201, true, "Timetable entry created successfully"⟩, entries ++ [e'])

/-- The request body of `PUT /api/timetable/:id` — every field optional. -/
structure TimetableUpdateInput where
  subject : Option JStr
  dayOfWeek : Option String
  startTime : Option JStr
  endTime : Option JStr
  teacher : Option JStr
  room : Option JStr
  ttype : Option String
  color : Option JStr
deriving DecidableEq

/-- The validator chain of `PUT /api/timetable/:id`: the same checks as the
create route, each applied only when its field is provided. -/
def routeValidTimetableUpdate (upd : TimetableUpdateInput) : Bool :=
  (match upd.subject with
    | none => true
    | some s => 1 ≤ (jsTrim s).length && (jsTrim s).length ≤ 50)
    && (match upd.dayOfWeek with | none => true | some d => daysOfWeek.contains d)
    && (match upd.startTime with | none => true | some t => validHHMM t)
    && (match upd.endTime with | none => true | some t => validHHMM t)
    && (match upd.teacher with | none => true | some t => (jsTrim t).length ≤ 50)
    && (match upd.room with | none => true | some r => (jsTrim r).length ≤ 20)
    && (match upd.ttype with | none => true | some ty => entryTypes.contains ty)
    && (match upd.color with | none => true | some c => validHexColor c)

/-- The `Object.keys(req.body).forEach(key => entry[key] = req.body[key])` of
the update route: each provided field overwrites the loaded document (the
validator's `trim()` sanitizers and the schema's trimming setters have
already trimmed `subject`, `teacher` and `room`). -/
def applyTimetableUpdate (e : TimetableEntry) (upd : TimetableUpdateInput) :
    TimetableEntry :=
  { e with
    subject := match upd.subject with | some s => jsTrim s | none => e.subject,
    dayOfWeek := upd.dayOfWeek.getD e.dayOfWeek,
    startTime := upd.startTime.getD e.startTime,
    endTime := upd.endTime.getD e.endTime,
    teacher := match upd.teacher with | some t => some (jsTrim t) | none => e.teacher,
    room := match upd.room with | some r => some (jsTrim r) | none => e.room,
    ttype := upd.ttype.getD e.ttype,
    color := upd.color.getD e.color }

/-- `router.put('/:id')` of `routes/timetable.js`: validate (failure responds
400 "Validation failed"), load the entry by `{_id, user}` (a miss responds
404), apply the provided fields and save; the catch block turns the pre-save
hook's "End time must be after start time" into a 400 — any other save error
into a 500 — with nothing persisted, while a successful save responds 200 and
replaces the entry. -/
def updateTimetableEntry (entries : List TimetableEntry) (authedId entryId : Nat)
    (upd : TimetableUpdateInput) : SimpleResponse × List TimetableEntry :=
  if ¬routeValidTimetableUpdate upd then
    (⟨400, false, "Validation failed"⟩, entries)
  else
    match entries.find? (fun x => x.id == entryId && x.user == authedId) with
    | none => (⟨404, false, "Timetable entry not found"⟩, entries)
    | some e =>
      match saveTimetable (applyTimetableUpdate e upd) with
      | .error msg =>
        if msg == "End time must be after start time" then
          (⟨400, false, "End time must be after start time"⟩, entries)
        else
          (⟨500, false, "Server error updating timetable entry"⟩, entries)
      | .ok e' =>
        (⟨200, true, "Timetable entry updated successfully"⟩,
          entries.map (fun x => if x.id = e'.id then e' else x))

/-! ## Store lookup lemmas -/

theorem findByEmail_normalize (store : List User) (e : JStr) :
    findByEmail store (normalizeEmail e) = findByEmail store e := by
  unfold findByEmail normalizeEmail
  congr 1
  funext u
  rw [jsToLower_idem]

theorem findByEmail_saveUser (store : List User) (u u' : User) (e : JStr)
    (hfind : findByEmail store e = some u)
    (hid : u'.id = u.id) (hem : jsToLower u'.email = jsToLower u.email) :
    findByEmail (saveUser store u') e = some u' := by
  have hpu : (jsToLower u.email == jsToLower e) = true := by
    have h0 : List.find? (fun x : User => jsToLower x.email == jsToLower e) store
        = some u := hfind
    exact @List.find?_some User (fun x : User => jsToLower x.email == jsToLower e) u store h0
  have hpu' : (jsToLower u'.email == jsToLower e) = true := by rw [hem]; exact hpu
  induction store with
  | nil => simp [findByEmail, List.find?] at hfind
  | cons v rest ih =>
    by_cases hp : (jsToLower v.email == jsToLower e) = true
    · have hv : v = u := by
        have h0 := hfind
        simp only [findByEmail, List.find?_cons, hp, Option.some.injEq] at h0
        exact h0
      have hvid : v.id = u'.id := by rw [hv, hid]
      simp only [findByEmail, saveUser, List.map_cons, if_pos hvid, List.find?_cons, hpu']
    · have hpf : (jsToLower v.email == jsToLower e) = false := by simpa using hp
      have hrest : findByEmail rest e = some u := by
        have h0 := hfind
        simp only [findByEmail, List.find?_cons, hpf] at h0
        exact h0
      by_cases hvid : v.id = u'.id
      · simp only [findByEmail, saveUser, List.map_cons, if_pos hvid, List.find?_cons, hpu']
      · simp only [findByEmail, saveUser, List.map_cons, if_neg hvid, List.find?_cons, hpf]
        simpa only [findByEmail, saveUser] using ih hrest

theorem find_by_id_saveUser (store : List User) (u : User)
    (h : (store.find? (fun v => v.id == u.id)).isSome = true) :
    (saveUser store u).find? (fun v => v.id == u.id) = some u := by
  induction store with
  | nil => simp [List.find?] at h
  | cons v rest ih =>
    by_cases hv : v.id = u.id
    · simp only [saveUser, List.map_cons, if_pos hv, List.find?_cons, beq_self_eq_true]
    · have hvf : (v.id == u.id) = false := by simpa using hv
      have h' : (rest.find? (fun x => x.id == u.id)).isSome = true := by
        have h0 := h
        simp only [List.find?_cons, hvf] at h0
        exact h0
      simp only [saveUser, List.map_cons, if_neg hv, List.find?_cons, hvf]
      simpa only [saveUser] using ih h'

/-! ## Claim C2 / C3: uniformity of login failures -/

/-- A store holding one deactivated account, used to exhibit the
deactivation-specific login message. -/
def deactivatedStore : List User :=
  [{ id := 1, name := ['A', 'l'], email := ['a', '@', 'x'],
     passwordHash := hashPassword ['s', 'e', 'c', 'r', 'e', 't'],
     userClass := ['t', 'e', 'n'], subjects := [], isActive := false,
     lastLogin := none }]

/-- C2 (counterexample): it is NOT the case that all three login failure
causes share one uniform message — a login against a deactivated account and
a login with an unknown email both fail with status 400, yet their messages
differ, revealing which check failed. -/
theorem login_inactive_message_reveals_cause :
    (login deactivatedStore ['a', '@', 'x'] ['p', 'w', 'd'] ['k'] 0 5).1.status = 400 ∧
    (login deactivatedStore ['b', '@', 'x'] ['p', 'w', 'd'] ['k'] 0 5).1.status = 400 ∧
    (login deactivatedStore ['a', '@', 'x'] ['p', 'w', 'd'] ['k'] 0 5).1.message
      ≠ (login deactivatedStore ['b', '@', 'x'] ['p', 'w', 'd'] ['k'] 0 5).1.message := by
  decide

/-- C2 (amended): a login that fails because the email has no matching
account, or because the password does not verify, returns the one uniform
"Invalid credentials" error with an unchanged store; a login against a
matching but deactivated account also fails with status 400 and the same
envelope shape, but with a distinct account-deactivated message. -/
theorem login_failures_uniform_except_inactive
    (store : List User) (email pw secret : JStr) (now ttl : Nat)
    (hwf : wellFormedEmail email = true) :
    (findByEmail store email = none →
      login store email pw secret now ttl
        = (⟨400, false, "Invalid credentials", none, none⟩, store)) ∧
    (∀ u, findByEmail store email = some u → u.isActive = true →
      comparePassword u pw = false →
      login store email pw secret now ttl
        = (⟨400, false, "Invalid credentials", none, none⟩, store)) ∧
    (∀ u, findByEmail store email = some u → u.isActive = false →
      login store email pw secret now ttl
        = (⟨400, false,
            "Your account has been deactivated. Please contact support.",
            none, none⟩, store)) := by
  refine ⟨fun hnone => ?_, fun u hsome hact hbad => ?_, fun u hsome hinact => ?_⟩
  · simp [login, hwf, findByEmail_normalize, hnone]
  · simp [login, hwf, findByEmail_normalize, hsome, hact, hbad]
  · simp [login, hwf, findByEmail_normalize, hsome, hinact]

/-- A store holding one active account with password `secret`. -/
def activeUser : User :=
  { id := 1, name := ['A', 'l'], email := ['a', '@', 'x'],
    passwordHash := hashPassword ['s', 'e', 'c', 'r', 'e', 't'],
    userClass := ['t', 'e', 'n'], subjects := [], isActive := true,
    lastLogin := none }

def activeUserStore : List User := [activeUser]

/-- C2 (witness): the amended theorem applied to a concrete store — an
unknown email and a wrong password produce the identical uniform response. -/
theorem login_failures_uniform_witness :
    login activeUserStore ['b', '@', 'x'] ['w', 'r', 'o', 'n', 'g'] ['k'] 0 5
      = (⟨400, false, "Invalid credentials", none, none⟩, activeUserStore) ∧
    login activeUserStore ['a', '@', 'x'] ['w', 'r', 'o', 'n', 'g'] ['k'] 0 5
      = (⟨400, false, "Invalid credentials", none, none⟩, activeUserStore) :=
  ⟨(login_failures_uniform_except_inactive activeUserStore ['b', '@', 'x']
      ['w', 'r', 'o', 'n', 'g'] ['k'] 0 5 (by decide)).1 (by decide),
   (login_failures_uniform_except_inactive activeUserStore ['a', '@', 'x']
      ['w', 'r', 'o', 'n', 'g'] ['k'] 0 5 (by decide)).2.1 activeUser
      (by decide) (by decide) (by decide)⟩

/-- C3: a login with an email matching no account and a login with an
existing active account's email but a non-verifying password produce the very
same result — the same status, success flag, message, payload and store (a
two-run indistinguishability of "no such user" and "wrong password"). -/
theorem login_wrong_password_indistinguishable
    (store : List User) (e₁ e₂ pw₁ pw₂ : JStr) (u : User)
    (secret : JStr) (now ttl : Nat)
    (h₁ : wellFormedEmail e₁ = true) (h₂ : wellFormedEmail e₂ = true)
    (hnone : findByEmail store e₁ = none)
    (hsome : findByEmail store e₂ = some u)
    (hact : u.isActive = true)
    (hbad : comparePassword u pw₂ = false) :
    login store e₁ pw₁ secret now ttl = login store e₂ pw₂ secret now ttl ∧
    (login store e₁ pw₁ secret now ttl).1
      = ⟨400, false, "Invalid credentials", none, none⟩ := by
  constructor
  · simp [login, h₁, h₂, findByEmail_normalize, hnone, hsome, hact, hbad]
  · simp [login, h₁, findByEmail_normalize, hnone]

/-- C3 (witness): the two-run property at a concrete store — a nonexistent
email versus the stored user's email with a wrong password. -/
theorem login_wrong_password_indistinguishable_witness :
    login activeUserStore ['b', '@', 'x'] ['p', 'w'] ['k'] 0 5
      = login activeUserStore ['a', '@', 'x'] ['w', 'r', 'o', 'n', 'g'] ['k'] 0 5 ∧
    (login activeUserStore ['b', '@', 'x'] ['p', 'w'] ['k'] 0 5).1
      = ⟨400, false, "Invalid credentials", none, none⟩ :=
  login_wrong_password_indistinguishable activeUserStore ['b', '@', 'x']
    ['a', '@', 'x'] ['p', 'w'] ['w', 'r', 'o', 'n', 'g'] activeUser ['k'] 0 5
    (by decide) (by decide) (by decide) (by decide) (by decide) (by decide)

/-! ## Claim C4: duplicate registration -/

/-- C4: a registration whose email is case-insensitively equal to the email
of a user already in the store responds with a 400 client error and leaves
the store unchanged — no second record is ever created — and, when the input
passes the validator chain, the error is the duplicate-resource message. -/
theorem register_duplicate_email_rejected
    (store : List User) (freshId : Nat)
    (name email password userClass : JStr) (subjects : List Subject)
    (secret : JStr) (now ttl : Nat) (u₀ : User)
    (hmem : u₀ ∈ store) (hdup : jsToLower u₀.email = jsToLower email) :
    (register store freshId name email password userClass subjects secret now ttl).1.status
        = 400 ∧
    (register store freshId name email password userClass subjects secret now ttl).1.success
        = false ∧
    (register store freshId name email password userClass subjects secret now ttl).2
        = store ∧
    (validNameInput name = true → wellFormedEmail email = true →
      6 ≤ password.length → validClassInput userClass = true →
      (register store freshId name email password userClass subjects secret now ttl).1.message
        = "User already exists with this email") := by
  have hsome : ∃ v, findByEmail store email = some v := by
    have h0 : (findByEmail store email).isSome = true := by
      apply List.find?_isSome.mpr
      exact ⟨u₀, hmem, by simp [hdup]⟩
    exact Option.isSome_iff_exists.mp h0
  obtain ⟨v, hv⟩ := hsome
  by_cases hval : (validNameInput name && wellFormedEmail email
      && decide (6 ≤ password.length) && validClassInput userClass) = true
  · refine ⟨?_, ?_, ?_, fun _ _ _ _ => ?_⟩ <;>
      simp [register, hval, findByEmail_normalize, hv]
  · refine ⟨?_, ?_, ?_, fun h1 h2 h3 h4 => absurd (by simp [h1, h2, h3, h4]) hval⟩ <;>
      simp [register, hval]

/-- C4 (witness): registering `A@X` over the stored `a@x` is rejected with
the duplicate message and the store is unchanged. -/
theorem register_duplicate_email_rejected_witness :
    (register activeUserStore 2 ['B', 'o', 'b'] ['A', '@', 'X']
        ['s', 't', 'r', 'o', 'n', 'g'] ['t', 'e', 'n'] [] ['k'] 0 5).1.status = 400 ∧
    (register activeUserStore 2 ['B', 'o', 'b'] ['A', '@', 'X']
        ['s', 't', 'r', 'o', 'n', 'g'] ['t', 'e', 'n'] [] ['k'] 0 5).2 = activeUserStore ∧
    (register activeUserStore 2 ['B', 'o', 'b'] ['A', '@', 'X']
        ['s', 't', 'r', 'o', 'n', 'g'] ['t', 'e', 'n'] [] ['k'] 0 5).1.message
      = "User already exists with this email" := by
  have h := register_duplicate_email_rejected activeUserStore 2 ['B', 'o', 'b']
    ['A', '@', 'X'] ['s', 't', 'r', 'o', 'n', 'g'] ['t', 'e', 'n'] [] ['k'] 0 5
    activeUser (by decide) (by decide)
  exact ⟨h.1, h.2.2.1, h.2.2.2 (by decide) (by decide) (by decide) (by decide)⟩

/-! ## Claim C1: register, login, and gate acceptance -/

/-- The user record built and persisted by a successful registration (the
`new User({...})` of the register route, after the sanitizers and the
hashing pre-save hook have applied). -/
def registeredUser (freshId : Nat) (name email password userClass : JStr)
    (subjects : List Subject) : User :=
  { id := freshId, name := jsTrim name, email := normalizeEmail email,
    passwordHash := hashPassword password, userClass := jsTrim userClass,
    subjects := subjects, isActive := true, lastLogin := none }

/-- C1: for every valid registration input (name of 2–50 letters/spaces,
well-formed email not yet registered, password of length at least 6,
non-empty class label), register responds 201 with a token, a subsequent
login with the same email and password responds 200 with a token, and the
Authorization Gate accepts that token (within its time-to-live), resolving
the freshly created user. -/
theorem register_login_roundtrip_gate_accepts
    (store : List User) (freshId : Nat)
    (name email password userClass : JStr) (subjects : List Subject)
    (secret : JStr) (now ttl : Nat)
    (hname : validNameInput name = true)
    (hemail : wellFormedEmail email = true)
    (hpw : 6 ≤ password.length)
    (hclass : validClassInput userClass = true)
    (hfresh : findByEmail store email = none)
    (httl : 0 < ttl) :
    (register store freshId name email password userClass subjects secret now ttl).1.status
        = 201 ∧
    ((register store freshId name email password userClass subjects secret now ttl).1.token).isSome
        = true ∧
    (login (register store freshId name email password userClass subjects secret now ttl).2
        email password secret now ttl).1.status = 200 ∧
    ∃ tok u,
      (login (register store freshId name email password userClass subjects secret now ttl).2
          email password secret now ttl).1.token = some tok ∧
      authGate
        (login (register store freshId name email password userClass subjects secret now ttl).2
            email password secret now ttl).2 secret (some tok) now
        = GateResult.verified u ∧
      u.id = freshId := by
  have hval : (validNameInput name && wellFormedEmail email
      && decide (6 ≤ password.length) && validClassInput userClass) = true := by
    simp [hname, hemail, hpw, hclass]
  have hreg : register store freshId name email password userClass subjects secret now ttl
      = (⟨201, true, "User registered successfully",
          some (registeredUser freshId name email password userClass subjects).getPublicProfile,
          some (generateToken secret freshId now ttl)⟩,
         store ++ [registeredUser freshId name email password userClass subjects]) := by
    simp [register, hval, findByEmail_normalize, hfresh, registeredUser]
  have hfind1 : findByEmail
      (store ++ [registeredUser freshId name email password userClass subjects]) email
      = some (registeredUser freshId name email password userClass subjects) := by
    unfold findByEmail
    rw [List.find?_append]
    have h1 : List.find? (fun x : User => jsToLower x.email == jsToLower email) store
        = none := hfresh
    rw [h1, Option.none_or]
    apply List.find?_cons_of_pos
    show (jsToLower (registeredUser freshId name email password userClass subjects).email
        == jsToLower email) = true
    simp [registeredUser, normalizeEmail, jsToLower_idem]
  have hcmp : comparePassword (registeredUser freshId name email password userClass subjects)
      password = true := by
    simp [comparePassword, registeredUser]
  have hact : (registeredUser freshId name email password userClass subjects).isActive
      = true := by simp [registeredUser]
  have hid0 : (registeredUser freshId name email password userClass subjects).id
      = freshId := by simp [registeredUser]
  have hlog : login
      (store ++ [registeredUser freshId name email password userClass subjects])
      email password secret now ttl
      = (⟨200, true, "Login successful",
          some (User.getPublicProfile
            { registeredUser freshId name email password userClass subjects with
                lastLogin := some now }),
          some (generateToken secret freshId now ttl)⟩,
         saveUser (store ++ [registeredUser freshId name email password userClass subjects])
           { registeredUser freshId name email password userClass subjects with
               lastLogin := some now }) := by
    simp [login, hemail, findByEmail_normalize, hfind1, hcmp, hact, hid0]
  have htok : verifyToken secret (generateToken secret freshId now ttl) now = some freshId := by
    simp [verifyToken, generateToken]
    omega
  have hfound : (saveUser
      (store ++ [registeredUser freshId name email password userClass subjects])
      { registeredUser freshId name email password userClass subjects with
          lastLogin := some now }).find? (fun v => v.id == freshId)
      = some ({ registeredUser freshId name email password userClass subjects with
          lastLogin := some now } : User) := by
    have hsome0 : ((store ++ [registeredUser freshId name email password userClass subjects]).find?
        (fun v => v.id ==
          ({ registeredUser freshId name email password userClass subjects with
              lastLogin := some now } : User).id)).isSome = true := by
      apply List.find?_isSome.mpr
      exact ⟨registeredUser freshId name email password userClass subjects,
        by simp, by simp [registeredUser]⟩
    exact find_by_id_saveUser _ _ hsome0
  have hgate : authGate
      (saveUser (store ++ [registeredUser freshId name email password userClass subjects])
        { registeredUser freshId name email password userClass subjects with
            lastLogin := some now })
      secret (some (generateToken secret freshId now ttl)) now
      = GateResult.verified
          { registeredUser freshId name email password userClass subjects with
              lastLogin := some now } := by
    simp only [authGate, htok, hfound]
    simp [registeredUser]
  rw [hreg]
  refine ⟨rfl, rfl, ?_, ?_⟩
  · rw [hlog]
  · exact ⟨generateToken secret freshId now ttl,
      { registeredUser freshId name email password userClass subjects with
          lastLogin := some now },
      by rw [hlog], by rw [hlog]; exact hgate, by simp [registeredUser]⟩

/-- C1 (witness): the full register–login–gate roundtrip on an empty store
with concrete valid inputs. -/
theorem register_login_roundtrip_gate_accepts_witness :
    (register [] 1 ['A', 'l'] ['a', '@', 'x'] ['s', 'e', 'c', 'r', 'e', 't']
        ['t', 'e', 'n'] [] ['k'] 0 5).1.status = 201 ∧
    ((register [] 1 ['A', 'l'] ['a', '@', 'x'] ['s', 'e', 'c', 'r', 'e', 't']
        ['t', 'e', 'n'] [] ['k'] 0 5).1.token).isSome = true ∧
    (login (register [] 1 ['A', 'l'] ['a', '@', 'x'] ['s', 'e', 'c', 'r', 'e', 't']
        ['t', 'e', 'n'] [] ['k'] 0 5).2
        ['a', '@', 'x'] ['s', 'e', 'c', 'r', 'e', 't'] ['k'] 0 5).1.status = 200 ∧
    ∃ tok u,
      (login (register [] 1 ['A', 'l'] ['a', '@', 'x'] ['s', 'e', 'c', 'r', 'e', 't']
          ['t', 'e', 'n'] [] ['k'] 0 5).2
          ['a', '@', 'x'] ['s', 'e', 'c', 'r', 'e', 't'] ['k'] 0 5).1.token = some tok ∧
      authGate
        (login (register [] 1 ['A', 'l'] ['a', '@', 'x'] ['s', 'e', 'c', 'r', 'e', 't']
            ['t', 'e', 'n'] [] ['k'] 0 5).2
            ['a', '@', 'x'] ['s', 'e', 'c', 'r', 'e', 't'] ['k'] 0 5).2 ['k'] (some tok) 0
        = GateResult.verified u ∧
      u.id = 1 :=
  register_login_roundtrip_gate_accepts [] 1 ['A', 'l'] ['a', '@', 'x']
    ['s', 'e', 'c', 'r', 'e', 't'] ['t', 'e', 'n'] [] ['k'] 0 5
    (by decide) (by decide) (by decide) (by decide) (by decide) (by decide)

/-! ## Claim C5 / C6: change-password -/

/-- C5 (counterexample): changing the password to the very same value is a
successful change-password with a new password of length at least 6, yet the
subsequent login with the old password still succeeds — so "a login with the
old password thereafter fails" does not hold for every new password. -/
theorem change_password_same_password_counterexample :
    (changePassword activeUserStore 1 ['s', 'e', 'c', 'r', 'e', 't']
        ['s', 'e', 'c', 'r', 'e', 't']).1.status = 200 ∧
    (login (changePassword activeUserStore 1 ['s', 'e', 'c', 'r', 'e', 't']
        ['s', 'e', 'c', 'r', 'e', 't']).2
        ['a', '@', 'x'] ['s', 'e', 'c', 'r', 'e', 't'] ['k'] 0 5).1.status = 200 ∧
    (login (changePassword activeUserStore 1 ['s', 'e', 'c', 'r', 'e', 't']
        ['s', 'e', 'c', 'r', 'e', 't']).2
        ['a', '@', 'x'] ['s', 'e', 'c', 'r', 'e', 't'] ['k'] 0 5).1.success = true := by
  decide

/-- C5 (amended): for every user and every new password of length at least 6
that differs from the old password, a successful change-password followed by
a login with the same email and the new password succeeds, and a login with
the old password thereafter fails with the uniform invalid-credentials
error. -/
theorem change_password_roundtrip
    (store : List User) (u : User) (email oldPw newPw secret : JStr)
    (now ttl : Nat)
    (hwf : wellFormedEmail email = true)
    (hfindid : store.find? (fun v => v.id == u.id) = some u)
    (hfindem : findByEmail store email = some u)
    (hact : u.isActive = true)
    (hcur : comparePassword u oldPw = true)
    (hlen : 6 ≤ newPw.length)
    (hne : oldPw ≠ newPw) :
    (changePassword store u.id oldPw newPw).1.status = 200 ∧
    (login (changePassword store u.id oldPw newPw).2 email newPw secret now ttl).1.status
        = 200 ∧
    (login (changePassword store u.id oldPw newPw).2 email newPw secret now ttl).1.success
        = true ∧
    (login (changePassword store u.id oldPw newPw).2 email oldPw secret now ttl).1
        = ⟨400, false, "Invalid credentials", none, none⟩ := by
  have hchg : changePassword store u.id oldPw newPw
      = (⟨200, true, "Password changed successfully"⟩,
         saveUser store { u with passwordHash := hashPassword newPw }) := by
    simp [changePassword, hlen, hfindid, hcur]
  have hfind2 : findByEmail (saveUser store { u with passwordHash := hashPassword newPw }) email
      = some { u with passwordHash := hashPassword newPw } := by
    exact findByEmail_saveUser store u _ email hfindem rfl rfl
  have hcmp2 : comparePassword { u with passwordHash := hashPassword newPw } newPw = true := by
    simp [comparePassword]
  have hcmpold : comparePassword { u with passwordHash := hashPassword newPw } oldPw
      = false := by
    simp [comparePassword, hashPassword]
    exact Ne.symm hne
  have hact2 : ({ u with passwordHash := hashPassword newPw } : User).isActive = true := by
    simp [hact]
  simp only [hact] at hchg hfind2 hcmp2 hcmpold hact2
  refine ⟨?_, ?_, ?_, ?_⟩
  · rw [hchg]
  · rw [hchg]
    simp [login, hwf, findByEmail_normalize, hfind2, hcmp2, hact2]
  · rw [hchg]
    simp [login, hwf, findByEmail_normalize, hfind2, hcmp2, hact2]
  · rw [hchg]
    simp [login, hwf, findByEmail_normalize, hfind2, hcmpold, hact2]

/-- C5 (witness): the amended roundtrip on the concrete store — change
`secret` to `newpas`, log in with `newpas` (succeeds), log in with `secret`
(uniformly rejected). -/
theorem change_password_roundtrip_witness :
    (changePassword activeUserStore 1 ['s', 'e', 'c', 'r', 'e', 't']
        ['n', 'e', 'w', 'p', 'a', 's']).1.status = 200 ∧
    (login (changePassword activeUserStore 1 ['s', 'e', 'c', 'r', 'e', 't']
        ['n', 'e', 'w', 'p', 'a', 's']).2
        ['a', '@', 'x'] ['n', 'e', 'w', 'p', 'a', 's'] ['k'] 0 5).1.status = 200 ∧
    (login (changePassword activeUserStore 1 ['s', 'e', 'c', 'r', 'e', 't']
        ['n', 'e', 'w', 'p', 'a', 's']).2
        ['a', '@', 'x'] ['n', 'e', 'w', 'p', 'a', 's'] ['k'] 0 5).1.success = true ∧
    (login (changePassword activeUserStore 1 ['s', 'e', 'c', 'r', 'e', 't']
        ['n', 'e', 'w', 'p', 'a', 's']).2
        ['a', '@', 'x'] ['s', 'e', 'c', 'r', 'e', 't'] ['k'] 0 5).1
      = ⟨400, false, "Invalid credentials", none, none⟩ :=
  change_password_roundtrip activeUserStore activeUser ['a', '@', 'x']
    ['s', 'e', 'c', 'r', 'e', 't'] ['n', 'e', 'w', 'p', 'a', 's'] ['k'] 0 5
    (by decide) (by decide) (by decide) (by decide) (by decide) (by decide) (by decide)

/-- C6: an authenticated change-password succeeds only when the supplied
current password verifies against the stored hash, and a non-verifying
current password (with a valid new password) yields the 400
"Current password is incorrect" response with the store — hence the stored
hash — unchanged. -/
theorem change_password_requires_current
    (store : List User) (authedId : Nat) (u : User) (current newPw : JStr)
    (hfind : store.find? (fun v => v.id == authedId) = some u) :
    ((changePassword store authedId current newPw).1.status = 200 →
      comparePassword u current = true) ∧
    (comparePassword u current = false → 6 ≤ newPw.length →
      changePassword store authedId current newPw
        = (⟨400, false, "Current password is incorrect"⟩, store)) := by
  constructor
  · intro h200
    by_contra hc
    have hcf : comparePassword u current = false := by simpa using hc
    by_cases hlen : 6 ≤ newPw.length
    · simp [changePassword, hlen, hfind, hcf] at h200
    · simp [changePassword, hlen] at h200
  · intro hcf hlen
    simp [changePassword, hlen, hfind, hcf]

/-- C6 (witness): a wrong current password on the concrete store is rejected
with the dedicated message and nothing changes. -/
theorem change_password_requires_current_witness :
    changePassword activeUserStore 1 ['w', 'r', 'o', 'n', 'g']
        ['n', 'e', 'w', 'p', 'a', 's']
      = (⟨400, false, "Current password is incorrect"⟩, activeUserStore) :=
  (change_password_requires_current activeUserStore 1 activeUser
      ['w', 'r', 'o', 'n', 'g'] ['n', 'e', 'w', 'p', 'a', 's'] (by decide)).2
    (by decide) (by decide)

/-! ## Claim C7: the profile update frame -/

/-- Replacing one record by a same-id record that agrees on id, email,
password hash, activity flag and last login leaves those fields of every
stored record unchanged (ids are unique in the store, as the database's
`_id` is). -/
theorem saveUser_frame (store : List User) (u w : User)
    (hnodup : (store.map User.id).Nodup) (humem : u ∈ store)
    (hid : w.id = u.id) (hem : w.email = u.email)
    (hph : w.passwordHash = u.passwordHash)
    (hia : w.isActive = u.isActive) (hll : w.lastLogin = u.lastLogin) :
    (saveUser store w).map
        (fun v => (v.id, v.email, v.passwordHash, v.isActive, v.lastLogin))
      = store.map (fun v => (v.id, v.email, v.passwordHash, v.isActive, v.lastLogin)) := by
  rw [saveUser, List.map_map]
  apply List.map_congr_left
  intro v hv
  by_cases h : v.id = w.id
  · have hvu : v = u := by
      exact List.inj_on_of_nodup_map hnodup hv humem (by rw [h, hid])
    simp [Function.comp, h, hid, hem, hph, hia, hll, hvu]
  · simp [Function.comp, h]

/-- C7: for every input to the profile-update route, only the name, class
label and subjects of the stored records may change: the id, email, password
hash, activity flag and last-login timestamp of every record are the same
after the operation (`authedId` is the gate-resolved caller and stored ids
are unique). -/
theorem update_profile_frame
    (store : List User) (authedId : Nat)
    (name userClass : Option JStr) (subjects : Option (List Subject))
    (hnodup : (store.map User.id).Nodup) :
    ((updateProfile store authedId name userClass subjects).2).map
        (fun v => (v.id, v.email, v.passwordHash, v.isActive, v.lastLogin))
      = store.map (fun v => (v.id, v.email, v.passwordHash, v.isActive, v.lastLogin)) := by
  by_cases hval : (validOptName name && validOptClass userClass) = true
  · cases hfind : store.find? (fun z => z.id == authedId) with
    | none => simp [updateProfile, hval, hfind]
    | some u =>
      have humem : u ∈ store := List.mem_of_find?_eq_some hfind
      simp only [updateProfile, hval, not_true_eq_false, Bool.false_eq_true,
        if_false, ite_false, hfind]
      apply saveUser_frame store u _ hnodup humem <;>
        rcases name with _ | s <;> rcases userClass with _ | c <;>
          rcases subjects with _ | ss <;> (try simp) <;> (repeat' split) <;> (try simp)
  · simp [updateProfile, hval]

/-- C7 (witness): a concrete profile update (changing name, class and
subjects) preserving email, password hash and the rest. -/
theorem update_profile_frame_witness :
    ((updateProfile activeUserStore 1 (some ['B', 'o', 'b']) (some ['n', 'i', 'n', 'e'])
        (some [⟨['M', 'a', 't', 'h'], [], "Pending"⟩])).2).map
        (fun v => (v.id, v.email, v.passwordHash, v.isActive, v.lastLogin))
      = activeUserStore.map
          (fun v => (v.id, v.email, v.passwordHash, v.isActive, v.lastLogin)) :=
  update_profile_frame activeUserStore 1 (some ['B', 'o', 'b'])
    (some ['n', 'i', 'n', 'e']) (some [⟨['M', 'a', 't', 'h'], [], "Pending"⟩])
    (by decide)

/-! ## Claim C8: per-user task scoping -/

/-- C8: when a task with the requested id exists and belongs to user `a`, a
request by a different authenticated user `b` receives exactly the 404
"Task not found" response — never 200 and never 403 — and that response is
identical to the one for an id matching no record at all. -/
theorem task_get_other_user_not_found
    (tasks : List Task) (a b tid : Nat)
    (hab : a ≠ b)
    (_hexist : ∃ t ∈ tasks, t.id = tid ∧ t.user = a)
    (howner : ∀ t ∈ tasks, t.id = tid → t.user = a) :
    getTaskById tasks b tid = ⟨404, false, some "Task not found", none⟩ ∧
    (getTaskById tasks b tid).status ≠ 200 ∧
    (getTaskById tasks b tid).status ≠ 403 ∧
    ∀ tid₂, (∀ t ∈ tasks, t.id ≠ tid₂) →
      getTaskById tasks b tid₂ = getTaskById tasks b tid := by
  have hnone : tasks.find? (fun t => t.id == tid && t.user == b) = none := by
    apply List.find?_eq_none.mpr
    intro t ht
    simp only [Bool.and_eq_true, beq_iff_eq, not_and]
    intro h1 h2
    exact hab (((howner t ht h1).symm.trans h2).symm ▸ rfl)
  have h404 : getTaskById tasks b tid = ⟨404, false, some "Task not found", none⟩ := by
    simp [getTaskById, hnone]
  refine ⟨h404, by rw [h404]; simp, by rw [h404]; simp, fun tid₂ hmiss => ?_⟩
  have hnone₂ : tasks.find? (fun t => t.id == tid₂ && t.user == b) = none := by
    apply List.find?_eq_none.mpr
    intro t ht
    simp only [Bool.and_eq_true, beq_iff_eq, not_and]
    intro h1
    exact absurd h1 (hmiss t ht)
  rw [h404]
  simp [getTaskById, hnone₂]

/-- A one-task store owned by user 1, for the scoping witness. -/
def taskStoreA : List Task :=
  [{ id := 10, user := 1, title := ['h', 'w'],
     subject := ['M', 'a', 't', 'h'], dueDate := 0 }]

/-- C8 (witness): user 2 requesting user 1's task 10 gets the same 404 as a
request for the nonexistent task 99. -/
theorem task_get_other_user_not_found_witness :
    getTaskById taskStoreA 2 10 = ⟨404, false, some "Task not found", none⟩ ∧
    getTaskById taskStoreA 2 99 = getTaskById taskStoreA 2 10 :=
  have h := task_get_other_user_not_found taskStoreA 1 2 10 (by decide)
    ⟨{ id := 10, user := 1, title := ['h', 'w'], subject := ['M', 'a', 't', 'h'],
       dueDate := 0 }, by simp [taskStoreA], rfl, rfl⟩
    (by simp [taskStoreA])
  ⟨h.1, h.2.2.2 99 (by simp [taskStoreA])⟩

/-! ## Claim C9: study-session duration derivation -/

/-- `Math.round(ms / 60000)` — i.e. `⌊ms/60000 + 1/2⌋`, computed by the hook
as a floor division — equals the rational rounding of `ms / 60000`. -/
theorem jsRound_div_60000 (ms : Int) :
    Int.fdiv (ms + 30000) 60000 = round ((ms : ℚ) / 60000) := by
  have hfd : Int.fdiv (ms + 30000) 60000 = (ms + 30000) / 60000 :=
    Int.fdiv_eq_ediv _ (by norm_num)
  have h1 : (ms : ℚ) / 60000 + 1 / 2 = ((ms + 30000 : ℤ) : ℚ) / ((60000 : ℕ) : ℚ) := by
    push_cast
    ring
  rw [hfd, round_eq, h1, Rat.floor_intCast_div_natCast]
  norm_num

/-- The truthiness-guarded `reduce` of the hook sums exactly the `duration`
fields that are present (a zero duration is skipped by truthiness but adds
nothing to the sum). -/
theorem sessionBreakSum_eq_filterMap (l : List SessionBreak) :
    sessionBreakSum l = (l.filterMap SessionBreak.duration).sum := by
  have haux : ∀ (l : List SessionBreak) (init : Int),
      l.foldl breakStep init = init + (l.filterMap SessionBreak.duration).sum := by
    intro l
    induction l with
    | nil => intro init; simp
    | cons b rest ih =>
      intro init
      rw [List.foldl_cons]
      cases hd : b.duration with
      | none =>
        rw [show breakStep init b = init from by simp [breakStep, hd], ih]
        simp [List.filterMap_cons, hd]
      | some d =>
        by_cases hdz : d = 0
        · rw [show breakStep init b = init from by simp [breakStep, hd, hdz], ih]
          simp [List.filterMap_cons, hd, hdz]
        · rw [show breakStep init b = init + d from by simp [breakStep, hd, hdz], ih]
          simp [List.filterMap_cons, hd, List.sum_cons]
          omega
  simpa [sessionBreakSum] using haux l 0

/-- C9: for a session saved with both times, the stored `duration` is the
millisecond difference divided by 60000 and rounded to the nearest integer
(ties rounding up, as `Math.round` does), the stored `totalBreakTime` is the
sum of the break `duration` fields that are present, and the
`effectiveStudyTime` virtual is their difference. -/
theorem study_session_derivation (s : StudySession) (e : Int)
    (he : s.endTime = some e) :
    (studySessionPreSave s).duration = round (((e - s.startTime : Int) : ℚ) / 60000) ∧
    (studySessionPreSave s).totalBreakTime
        = (s.breaks.filterMap SessionBreak.duration).sum ∧
    effectiveStudyTime (studySessionPreSave s)
        = (studySessionPreSave s).duration - (studySessionPreSave s).totalBreakTime := by
  have hps : studySessionPreSave s
      = { s with duration := Int.fdiv (e - s.startTime + 30000) 60000,
                 totalBreakTime := sessionBreakSum s.breaks } := by
    simp [studySessionPreSave, he]
  refine ⟨?_, ?_, rfl⟩
  · rw [hps]
    exact jsRound_div_60000 (e - s.startTime)
  · rw [hps]
    exact sessionBreakSum_eq_filterMap s.breaks

/-- A concrete 150000 ms session with breaks of 1, absent, and 0 minutes. -/
def sampleSession : StudySession :=
  { user := 1, subject := ['M'], startTime := 0, endTime := some 150000,
    duration := 0, notes := none, productivity := none, status := "Completed",
    breaks := [⟨none, none, some 1⟩, ⟨none, none, none⟩, ⟨none, none, some 0⟩],
    totalBreakTime := 0 }

/-- C9 (witness): the derivation rules applied to the concrete session. -/
theorem study_session_derivation_witness :
    (studySessionPreSave sampleSession).duration
        = round (((150000 - sampleSession.startTime : Int) : ℚ) / 60000) ∧
    (studySessionPreSave sampleSession).totalBreakTime
        = (sampleSession.breaks.filterMap SessionBreak.duration).sum ∧
    effectiveStudyTime (studySessionPreSave sampleSession)
        = (studySessionPreSave sampleSession).duration
            - (studySessionPreSave sampleSession).totalBreakTime :=
  study_session_derivation sampleSession 150000 rfl

/-! ## Claim C10: the timetable end-after-start invariant -/

/-- A decimal digit is not one of the whitespace characters. -/
theorem isWsChar_of_isDigit (c : Char) (h : c.isDigit = true) :
    isWsChar c = false := by
  by_cases h1 : c = ' '
  · subst h1; exact absurd h (by decide)
  by_cases h2 : c = '\t'
  · subst h2; exact absurd h (by decide)
  by_cases h3 : c = '\n'
  · subst h3; exact absurd h (by decide)
  by_cases h4 : c = '\r'
  · subst h4; exact absurd h (by decide)
  simp [isWsChar, h1, h2, h3, h4]

/-- A nonempty all-digit string is fully consumed by its own `takeWhile`. -/
theorem takeWhile_digits (l : JStr) (h : ∀ x ∈ l, x.isDigit = true) :
    l.takeWhile Char.isDigit = l := by
  induction l with
  | nil => rfl
  | cons c cs ih =>
    rw [List.takeWhile_cons, if_pos (h c (by simp))]
    rw [ih (fun x hx => h x (by simp [hx]))]

/-- `parseInt` on a nonempty string of decimal digits reads it whole. -/
theorem jsParseInt_digits (s : JStr) (hne : s ≠ [])
    (hd : ∀ x ∈ s, x.isDigit = true) :
    jsParseInt s = some (digitsToNat s) := by
  cases s with
  | nil => exact absurd rfl hne
  | cons c cs =>
    have hc : c.isDigit = true := hd c (by simp)
    have h1 : (c :: cs).dropWhile isWsChar = c :: cs := by
      rw [List.dropWhile_cons, if_neg (by simp [isWsChar_of_isDigit c hc])]
    have h2 : (c :: cs).takeWhile Char.isDigit = c :: cs := takeWhile_digits _ hd
    simp [jsParseInt, h1, h2]

/-- A regex-valid `HH:MM` string always yields a total-minutes value in the
hook (its `parseInt`s cannot produce `NaN`). -/
theorem timeTotalMinutes_of_validHHMM (t : JStr) (h : validHHMM t = true) :
    ∃ n, timeTotalMinutes t = some n := by
  unfold validHHMM at h
  rcases hsp : splitOnChar ':' t with _ | ⟨h1, _ | ⟨m1, _ | ⟨x, xs⟩⟩⟩ <;>
    rw [hsp] at h
  · exact absurd h (by simp)
  · exact absurd h (by simp)
  · simp only [Bool.and_eq_true, Bool.not_eq_true', List.isEmpty_eq_false,
      List.all_eq_true, beq_iff_eq, decide_eq_true_eq] at h
    obtain ⟨⟨⟨⟨⟨⟨hne1, hall1⟩, _⟩, _⟩, hlen2⟩, hall2⟩, _⟩ := h
    have hne2 : m1 ≠ [] := by
      intro h0
      rw [h0] at hlen2
      simp at hlen2
    refine ⟨digitsToNat h1 * 60 + digitsToNat m1, ?_⟩
    unfold timeTotalMinutes
    rw [hsp]
    simp [jsParseInt_digits h1 hne1 hall1, jsParseInt_digits m1 hne2 hall2]
  · exact absurd h (by simp)

/-- C10: (a) every entry that `save` accepts has both times parsing to
minutes of day with the end strictly after the start — an entry with end at
or before start never saves; (b) the create route surfaces exactly that
failure as a 400 with the hook's message and persists nothing; and (c) the
update route does the same: when the entry resulting from applying a valid
update to a stored (schema-valid) entry has its end at or before its start,
the route responds 400 with the hook's message and the store is unchanged. -/
theorem timetable_end_after_start_invariant :
    (∀ e e', saveTimetable e = Except.ok e' →
      e' = e ∧ ∃ sm em, timeTotalMinutes e.startTime = some sm ∧
        timeTotalMinutes e.endTime = some em ∧ sm < em) ∧
    (∀ (entries : List TimetableEntry) (freshId authedId : Nat)
        (inp : TimetableInput) (sm em : Nat),
      routeValidTimetable inp = true →
      timeTotalMinutes inp.startTime = some sm →
      timeTotalMinutes inp.endTime = some em →
      em ≤ sm →
      createTimetableEntry entries freshId authedId inp
        = (⟨400, false, "End time must be after start time"⟩, entries)) ∧
    (∀ (entries : List TimetableEntry) (authedId entryId : Nat)
        (upd : TimetableUpdateInput) (e : TimetableEntry) (sm em : Nat),
      routeValidTimetableUpdate upd = true →
      entries.find? (fun x => x.id == entryId && x.user == authedId) = some e →
      schemaValidTimetable e = true →
      timeTotalMinutes (applyTimetableUpdate e upd).startTime = some sm →
      timeTotalMinutes (applyTimetableUpdate e upd).endTime = some em →
      em ≤ sm →
      updateTimetableEntry entries authedId entryId upd
        = (⟨400, false, "End time must be after start time"⟩, entries)) := by
  refine ⟨?_, ?_, ?_⟩
  · intro e e' hok
    by_cases hsv : schemaValidTimetable e = true
    · have hhmm : validHHMM e.startTime = true ∧ validHHMM e.endTime = true := by
        simp only [schemaValidTimetable, Bool.and_eq_true] at hsv
        exact ⟨hsv.1.1.1.1.1.2, hsv.1.1.1.1.2⟩
      obtain ⟨sm, hsm⟩ := timeTotalMinutes_of_validHHMM _ hhmm.1
      obtain ⟨em, hem⟩ := timeTotalMinutes_of_validHHMM _ hhmm.2
      simp only [saveTimetable, hsv, not_true_eq_false, if_false, ite_false,
        hsm, hem] at hok
      by_cases hle : em ≤ sm
      · simp [hle] at hok
      · simp only [hle, if_false, ite_false, Except.ok.injEq] at hok
        exact ⟨hok.symm, sm, em, hok ▸ hsm, hok ▸ hem, Nat.lt_of_not_le hle⟩
    · simp [saveTimetable, hsv] at hok
  · intro entries freshId authedId inp sm em hroute hsm hem hle
    have hcomp := hroute
    simp only [routeValidTimetable, Bool.and_eq_true, decide_eq_true_eq] at hcomp
    obtain ⟨⟨⟨⟨⟨⟨⟨⟨hlen1, hlen50⟩, hday⟩, hst⟩, hen⟩, hteach⟩, hroom⟩, hty⟩,
      hcol⟩ := hcomp
    have hsubne : (jsTrim inp.subject).isEmpty = false := by
      rw [List.isEmpty_eq_false]
      intro h0
      rw [h0] at hlen1
      simp at hlen1
    have hsv : schemaValidTimetable
        { id := freshId, user := authedId, subject := jsTrim inp.subject,
          dayOfWeek := inp.dayOfWeek, startTime := inp.startTime,
          endTime := inp.endTime, teacher := inp.teacher.map jsTrim,
          room := inp.room.map jsTrim, ttype := inp.ttype.getD "Lecture",
          color := inp.color.getD defaultColor, isActive := true } = true := by
      simp only [schemaValidTimetable, Bool.and_eq_true]
      refine ⟨⟨⟨⟨⟨⟨⟨?_, ?_⟩, ?_⟩, ?_⟩, ?_⟩, ?_⟩, ?_⟩, ?_⟩
      · simp [hsubne]
      · exact hday
      · exact hst
      · exact hen
      · rcases hj : inp.teacher with _ | t
        · simp
        · rw [hj] at hteach
          simpa using hteach
      · rcases hj : inp.room with _ | r
        · simp
        · rw [hj] at hroom
          simpa using hroom
      · rcases hj : inp.ttype with _ | ty
        · decide
        · rw [hj] at hty
          simpa using hty
      · rcases hj : inp.color with _ | cl
        · decide
        · rw [hj] at hcol
          simpa using hcol
    have hsave : saveTimetable
        { id := freshId, user := authedId, subject := jsTrim inp.subject,
          dayOfWeek := inp.dayOfWeek, startTime := inp.startTime,
          endTime := inp.endTime, teacher := inp.teacher.map jsTrim,
          room := inp.room.map jsTrim, ttype := inp.ttype.getD "Lecture",
          color := inp.color.getD defaultColor, isActive := true }
        = Except.error "End time must be after start time" := by
      simp only [saveTimetable, hsv, not_true_eq_false, if_false, ite_false]
      simp [hsm, hem, hle]
    simp [createTimetableEntry, hroute, hsave]
  · intro entries authedId entryId upd e sm em hroute hfind hse hsm hem hle
    have hcomp := hroute
    simp only [routeValidTimetableUpdate, Bool.and_eq_true, decide_eq_true_eq]
      at hcomp
    obtain ⟨⟨⟨⟨⟨⟨⟨hu1, hu2⟩, hu3⟩, hu4⟩, hu5⟩, hu6⟩, hu7⟩, hu8⟩ := hcomp
    simp only [schemaValidTimetable, Bool.and_eq_true] at hse
    obtain ⟨⟨⟨⟨⟨⟨⟨he1, he2⟩, he3⟩, he4⟩, he5⟩, he6⟩, he7⟩, he8⟩ := hse
    have hsv : schemaValidTimetable (applyTimetableUpdate e upd) = true := by
      simp only [schemaValidTimetable, Bool.and_eq_true]
      refine ⟨⟨⟨⟨⟨⟨⟨?_, ?_⟩, ?_⟩, ?_⟩, ?_⟩, ?_⟩, ?_⟩, ?_⟩
      · rcases hj : upd.subject with _ | s
        · simpa [applyTimetableUpdate, hj] using he1
        · rw [hj] at hu1
          simp only [decide_eq_true_eq] at hu1
          have hne : jsTrim s ≠ [] := by
            intro h0
            rw [h0] at hu1
            simp at hu1
          simp [applyTimetableUpdate, hj, List.isEmpty_eq_false, hne]
      · rcases hj : upd.dayOfWeek with _ | d
        · simpa [applyTimetableUpdate, hj] using he2
        · rw [hj] at hu2
          simpa [applyTimetableUpdate, hj] using hu2
      · rcases hj : upd.startTime with _ | t
        · simpa [applyTimetableUpdate, hj] using he3
        · rw [hj] at hu3
          simpa [applyTimetableUpdate, hj] using hu3
      · rcases hj : upd.endTime with _ | t
        · simpa [applyTimetableUpdate, hj] using he4
        · rw [hj] at hu4
          simpa [applyTimetableUpdate, hj] using hu4
      · rcases hj : upd.teacher with _ | t
        · simpa [applyTimetableUpdate, hj] using he5
        · rw [hj] at hu5
          simpa [applyTimetableUpdate, hj] using hu5
      · rcases hj : upd.room with _ | r
        · simpa [applyTimetableUpdate, hj] using he6
        · rw [hj] at hu6
          simpa [applyTimetableUpdate, hj] using hu6
      · rcases hj : upd.ttype with _ | ty
        · simpa [applyTimetableUpdate, hj] using he7
        · rw [hj] at hu7
          simpa [applyTimetableUpdate, hj] using hu7
      · rcases hj : upd.color with _ | cl
        · simpa [applyTimetableUpdate, hj] using he8
        · rw [hj] at hu8
          simpa [applyTimetableUpdate, hj] using hu8
    have hsave : saveTimetable (applyTimetableUpdate e upd)
        = Except.error "End time must be after start time" := by
      simp only [saveTimetable, hsv, not_true_eq_false, if_false, ite_false]
      simp [hsm, hem, hle]
    simp [updateTimetableEntry, hroute, hfind, hsave]

/-- A create request whose end time (09:30) is before its start time
(10:00). -/
def badTimetableInput : TimetableInput :=
  { subject := ['M', 'a', 't', 'h'], dayOfWeek := "Monday",
    startTime := ['1', '0', ':', '0', '0'], endTime := ['0', '9', ':', '3', '0'],
    teacher := none, room := none, ttype := none, color := none }

/-- A well-formed stored entry (id 5, user 1) from 09:00 to 10:00. -/
def goodTimetableEntry : TimetableEntry :=
  { id := 5, user := 1, subject := ['M', 'a', 't', 'h'], dayOfWeek := "Monday",
    startTime := ['0', '9', ':', '0', '0'], endTime := ['1', '0', ':', '0', '0'],
    teacher := none, room := none, ttype := "Lecture", color := defaultColor,
    isActive := true }

/-- An update moving only the end time, back to 08:00 — before the stored
start of 09:00. -/
def badTimetableUpdate : TimetableUpdateInput :=
  { subject := none, dayOfWeek := none, startTime := none,
    endTime := some ['0', '8', ':', '0', '0'], teacher := none, room := none,
    ttype := none, color := none }

/-- C10 (witness): the concrete backwards create request is rejected with the
hook's message and nothing is persisted; the concrete well-formed entry saves
and satisfies the invariant; and the concrete backwards update of that stored
entry is rejected with the hook's message, the store unchanged. -/
theorem timetable_end_after_start_invariant_witness :
    (createTimetableEntry [] 7 1 badTimetableInput
      = (⟨400, false, "End time must be after start time"⟩, [])) ∧
    (goodTimetableEntry = goodTimetableEntry ∧ ∃ sm em,
      timeTotalMinutes goodTimetableEntry.startTime = some sm ∧
      timeTotalMinutes goodTimetableEntry.endTime = some em ∧ sm < em) ∧
    (updateTimetableEntry [goodTimetableEntry] 1 5 badTimetableUpdate
      = (⟨400, false, "End time must be after start time"⟩, [goodTimetableEntry])) :=
  ⟨timetable_end_after_start_invariant.2.1 [] 7 1 badTimetableInput 600 570
      (by decide) (by decide) (by decide) (by decide),
   timetable_end_after_start_invariant.1 goodTimetableEntry goodTimetableEntry
      (by rfl),
   timetable_end_after_start_invariant.2.2 [goodTimetableEntry] 1 5
      badTimetableUpdate goodTimetableEntry 540 480
      (by decide) (by decide) (by decide) (by decide) (by decide) (by decide)⟩

end Planity
